import Mathlib

/-!
Verification of the react-onepager-nav core: a single-page site whose
navigation bar highlights the section currently in the viewport and
smooth-scrolls to a section when its entry is clicked.

Sources embedded below:
- `src/src/nav/NavLink.js` — the NavLink component: `scrollToSection`,
  `handleClick`, and the rendered `className` test.
- `src/src/pages/Contact.js` lines 32-46 — the `useNav` hook
  (`if (isOnScreen) setActiveNavLinkId(navLinkId)` inside an effect).
- `src/src/pages/Contact.js` lines 136-154 — the `useOnScreen` hook
  (IntersectionObserver with thresholds `[0.25, 0.5, 0.75]`, callback
  `([entry]) => setOnScreen(entry.isIntersecting)`, effect
  `observer.observe(ref.current)` with cleanup `observer.disconnect()`).
- `src/src/pages/Contact.js` lines 172-183 — the `NavProvider`
  (`useState('')` for `activeNavLinkId` and its setter).
- `src/src/nav/Nav.js` — maps the configured `navLinks` array to NavLink
  components.
- `src/src/pages/Home.js`, `About.js`, `Contact.js` — the three sections,
  each registering via `useNav('Home' | 'About' | 'Contact')`.
-/

/-- A navLinks entry, as documented in Nav.js: `navLinkId` is the id of the
NavLink container, `scrollToId` the id of the page container to scroll to
on click. -/
structure NavLinkDesc where
  navLinkId : String
  scrollToId : String
deriving DecidableEq, Repr

/-- Modelled from the spec: the configured navLinks array. The file
`src/nav/navLinks.js` is not under src/; Nav.js imports it, the README shows
the entry `navLinkId: Home, scrollToId: homeContainer`, and the three page
components expose containers `homeContainer`, `aboutContainer`,
`contactContainer` registered under identifiers `Home`, `About`, `Contact`. -/
def navLinks : List NavLinkDesc :=
  [⟨"Home", "homeContainer"⟩, ⟨"About", "aboutContainer"⟩,
   ⟨"Contact", "contactContainer"⟩]

/-- The section identifiers passed to `useNav` by the page components
(Home.js, About.js, Contact.js). -/
def registeredSections : List String := ["Home", "About", "Contact"]

/-- The NavContext value held by NavProvider: `useState('')` yields the
single `activeNavLinkId` slot (Contact.js lines 172-183). -/
structure NavState where
  activeNavLinkId : String
deriving DecidableEq, Repr

/-- The setter exposed by NavProvider: replaces `activeNavLinkId` with the
given string, unconditionally (no validation). -/
def setActiveNavLinkId (s : NavState) (id : String) : NavState :=
  { s with activeNavLinkId := id }

/-- Initial NavProvider state: `useState('')` (Contact.js line 173). -/
def initNavState : NavState := ⟨""⟩

/-- The className computed by NavLink's render:
`activeNavLinkId === navLinkId ? 'activeClass' : ''`. -/
def navLinkClassName (activeNavLinkId navLinkId : String) : String :=
  if activeNavLinkId = navLinkId then "activeClass" else ""

/-- The document, modelled as the list of element ids present;
`document.getElementById` returns the element when the id is present and
null otherwise. -/
def getElementById (dom : List String) (elementId : String) : Option String :=
  if elementId ∈ dom then some elementId else none

/-- Observable actions performed by the click handler, in order. A
`throwTypeError` records the platform TypeError raised by calling
`scrollIntoView` on the null returned by a failed `getElementById`. -/
inductive DomAction where
  | setActive (id : String)
  | smoothScroll (elementId : String)
  | throwTypeError
deriving DecidableEq, Repr

/-- NavLink.js `scrollToSection`: resolves the element id and requests a
smooth `scrollIntoView`; when `getElementById` returns null the member
access throws a TypeError. -/
def scrollToSection (dom : List String) (elementId : String) : List DomAction :=
  match getElementById dom elementId with
  | some e => [DomAction.smoothScroll e]
  | none => [DomAction.throwTypeError]

/-- NavLink.js `handleClick`: first `setActiveNavLinkId(navLinkId)`, then
`scrollToSection(scrollToId)`; the resulting action trace is in execution
order. -/
def handleClick (dom : List String) (l : NavLinkDesc) : List DomAction :=
  DomAction.setActive l.navLinkId :: scrollToSection dom l.scrollToId

/-- Thresholds configured on the IntersectionObserver in `useOnScreen`
(Contact.js line 143). -/
def observerThresholds : List ℚ := [1/4, 1/2, 3/4]

/-- The observer callback in `useOnScreen`:
`([entry]) => setOnScreen(entry.isIntersecting)` — the new isOnScreen value
is the first entry's `isIntersecting` flag. -/
def observerCallback (entryIsIntersecting : Bool) : Bool :=
  entryIsIntersecting

/-- Outcome of the `useOnScreen` effect body. -/
inductive ObserveResult where
  | observed
  | typeError
deriving DecidableEq, Repr

/-- The effect body of `useOnScreen` (Contact.js line 147):
`observer.observe(ref.current)` with no guard. When `ref.current` is null
the platform call `observe(null)` throws a TypeError (parameter 1 is not of
type Element); otherwise the observation is registered. -/
def observeEffect (refCurrent : Option String) : ObserveResult :=
  match refCurrent with
  | some _ => ObserveResult.observed
  | none => ObserveResult.typeError

/-- The `useNav` effect (Contact.js lines 39-43): write the section
identifier into NavState when `isOnScreen` is true, otherwise leave the
state unchanged. -/
def useNavEffect (navLinkId : String) (isOnScreen : Bool) (nav : NavState) :
    NavState :=
  if isOnScreen then setActiveNavLinkId nav navLinkId else nav

/-- Whole-system state: the shared NavState plus the set of sections whose
`useOnScreen` observer is currently connected (mounted hooks). -/
structure SysState where
  nav : NavState
  mounted : List String
deriving DecidableEq, Repr

/-- Reactions serialized on the UI thread: a click on a NavLink, an
observer visibility report for a section, and hook mount/unmount
(`observer.observe` on effect, `observer.disconnect` on cleanup). -/
inductive SysEvent where
  | click (l : NavLinkDesc)
  | vis (id : String) (isOnScreen : Bool)
  | mount (id : String)
  | unmount (id : String)
deriving DecidableEq, Repr

/-- One reaction. A visibility report reaches `useNavEffect` only while the
section's observer is connected; `unmount` runs the cleanup
`observer.disconnect()`, removing the section's observation. -/
def sysStep (s : SysState) (e : SysEvent) : SysState :=
  match e with
  | SysEvent.click l => { s with nav := setActiveNavLinkId s.nav l.navLinkId }
  | SysEvent.vis id isOnScreen =>
      if id ∈ s.mounted then { s with nav := useNavEffect id isOnScreen s.nav }
      else s
  | SysEvent.mount id => { s with mounted := id :: s.mounted }
  | SysEvent.unmount id => { s with mounted := s.mounted.filter (· != id) }

/-- Run a sequence of reactions in order. -/
def sysRun (s : SysState) (es : List SysEvent) : SysState :=
  es.foldl sysStep s

/-- Initial system state: NavProvider's empty active identifier, no hook
mounted yet. -/
def initSysState : SysState := ⟨initNavState, []⟩

/-- Events that can actually arise in the program: clicks come from the
configured navLinks entries (Nav.js maps exactly those), and visibility
reports, mounts and unmounts come from the three page components that call
`useNav`. -/
def validEvent : SysEvent → Bool
  | SysEvent.click l => decide (l ∈ navLinks)
  | SysEvent.vis id _ => decide (id ∈ registeredSections)
  | SysEvent.mount id => decide (id ∈ registeredSections)
  | SysEvent.unmount id => decide (id ∈ registeredSections)

/-- States reachable from page load by valid reactions. -/
def Reachable (s : SysState) : Prop :=
  ∃ es : List SysEvent, (∀ e ∈ es, validEvent e = true) ∧ sysRun initSysState es = s

-- Helper lemmas ------------------------------------------------------------

lemma sysRun_cons (s : SysState) (e : SysEvent) (es : List SysEvent) :
    sysRun s (e :: es) = sysRun (sysStep s e) es := rfl

lemma sysRun_append (s : SysState) (es fs : List SysEvent) :
    sysRun s (es ++ fs) = sysRun (sysRun s es) fs := by
  simp [sysRun, List.foldl_append]

lemma className_active_iff (a id : String) :
    navLinkClassName a id = "activeClass" ↔ a = id := by
  by_cases h : a = id <;> simp [navLinkClassName, h]

lemma registeredSections_eq_ids :
    registeredSections = navLinks.map NavLinkDesc.navLinkId := by
  rfl

lemma sysStep_nav_mem (s : SysState) (e : SysEvent) (hv : validEvent e = true)
    (hs : s.nav.activeNavLinkId = "" ∨
      s.nav.activeNavLinkId ∈ navLinks.map NavLinkDesc.navLinkId) :
    (sysStep s e).nav.activeNavLinkId = "" ∨
      (sysStep s e).nav.activeNavLinkId ∈ navLinks.map NavLinkDesc.navLinkId := by
  cases e with
  | click l =>
      right
      simp only [validEvent, decide_eq_true_eq] at hv
      simpa [sysStep, setActiveNavLinkId] using List.mem_map_of_mem _ hv
  | vis id b =>
      simp only [validEvent, decide_eq_true_eq, registeredSections_eq_ids] at hv
      by_cases hm : id ∈ s.mounted
      · cases b with
        | true => right; simpa [sysStep, useNavEffect, setActiveNavLinkId, hm] using hv
        | false => simpa [sysStep, useNavEffect, hm] using hs
      · simpa [sysStep, hm] using hs
  | mount id => simpa [sysStep] using hs
  | unmount id => simpa [sysStep] using hs

lemma sysRun_nav_mem (es : List SysEvent) :
    ∀ s : SysState, (∀ e ∈ es, validEvent e = true) →
    (s.nav.activeNavLinkId = "" ∨
      s.nav.activeNavLinkId ∈ navLinks.map NavLinkDesc.navLinkId) →
    ((sysRun s es).nav.activeNavLinkId = "" ∨
      (sysRun s es).nav.activeNavLinkId ∈ navLinks.map NavLinkDesc.navLinkId) := by
  induction es with
  | nil => intro s _ hs; exact hs
  | cons e es ih =>
      intro s hv hs
      rw [sysRun_cons]
      exact ih _ (fun f hf => hv f (List.mem_cons_of_mem e hf))
        (sysStep_nav_mem s e (hv e (List.mem_cons_self e es)) hs)

lemma filter_active_le_one (a : String) :
    (navLinks.filter
      (fun l => navLinkClassName a l.navLinkId == "activeClass")).length ≤ 1 := by
  by_cases h1 : a = "Home"
  · subst h1; decide
  · by_cases h2 : a = "About"
    · subst h2; decide
    · by_cases h3 : a = "Contact"
      · subst h3; decide
      · have hnone : navLinks.filter
            (fun l => navLinkClassName a l.navLinkId == "activeClass") = [] := by
          simp [navLinks, navLinkClassName, h1, h2, h3]
        simp [hnone]

lemma vis_run_noop (id : String) (es : List SysEvent)
    (h : ∀ e ∈ es, ∃ b, e = SysEvent.vis id b) :
    ∀ s : SysState, id ∉ s.mounted → sysRun s es = s := by
  induction es with
  | nil => intro s _; rfl
  | cons e es ih =>
      intro s hm
      obtain ⟨b, rfl⟩ := h _ (List.mem_cons_self e es)
      rw [sysRun_cons]
      have hstep : sysStep s (SysEvent.vis id b) = s := by
        simp [sysStep, hm]
      rw [hstep]
      exact ih (fun f hf => h f (List.mem_cons_of_mem _ hf)) s hm

lemma navLinks_ids_ne_empty : ∀ l ∈ navLinks, l.navLinkId ≠ "" := by decide

lemma registeredSections_ne_empty : ∀ id ∈ registeredSections, id ≠ "" := by
  decide

lemma sysStep_preserves_nonempty (s : SysState) (e : SysEvent)
    (hv : validEvent e = true) (h : s.nav.activeNavLinkId ≠ "") :
    (sysStep s e).nav.activeNavLinkId ≠ "" := by
  cases e with
  | click l =>
      simp only [validEvent, decide_eq_true_eq] at hv
      simpa [sysStep, setActiveNavLinkId] using navLinks_ids_ne_empty l hv
  | vis id b =>
      simp only [validEvent, decide_eq_true_eq] at hv
      by_cases hm : id ∈ s.mounted
      · cases b with
        | true =>
            simpa [sysStep, useNavEffect, setActiveNavLinkId, hm] using
              registeredSections_ne_empty id hv
        | false => simpa [sysStep, useNavEffect, hm] using h
      · simpa [sysStep, hm] using h
  | mount id => simpa [sysStep] using h
  | unmount id => simpa [sysStep] using h

lemma sysRun_preserves_nonempty (es : List SysEvent) :
    ∀ s : SysState, (∀ e ∈ es, validEvent e = true) →
    s.nav.activeNavLinkId ≠ "" → (sysRun s es).nav.activeNavLinkId ≠ "" := by
  induction es with
  | nil => intro s _ h; exact h
  | cons e es ih =>
      intro s hv h
      rw [sysRun_cons]
      exact ih _ (fun f hf => hv f (List.mem_cons_of_mem e hf))
        (sysStep_preserves_nonempty s e (hv e (List.mem_cons_self e es)) h)

-- Claim theorems ------------------------------------------------------------

/-- C1: the click handler of a navigation entry first writes that entry's
identifier into the shared Navigation State (the trace starts with the state
write), every smooth-scroll request in the trace comes strictly after it,
and when the target id resolves the handler does issue the smooth scroll on
that entry's target. -/
theorem click_sets_active_before_scroll (dom : List String) (l : NavLinkDesc) :
    (handleClick dom l).head? = some (DomAction.setActive l.navLinkId) ∧
    (∀ i e, (handleClick dom l).get? i = some (DomAction.smoothScroll e) →
      0 < i) ∧
    (∀ e, getElementById dom l.scrollToId = some e →
      DomAction.smoothScroll e ∈ handleClick dom l) := by
  refine ⟨rfl, ?_, ?_⟩
  · intro i e hi
    cases i with
    | zero => simp [handleClick] at hi
    | succ n => exact Nat.succ_pos n
  · intro e he
    simp [handleClick, scrollToSection, he]

/-- C1 witness: clicking the Home entry in a document containing
homeContainer. -/
theorem click_sets_active_before_scroll_witness :
    (handleClick ["homeContainer"] ⟨"Home", "homeContainer"⟩).head? =
      some (DomAction.setActive "Home") ∧
    DomAction.smoothScroll "homeContainer" ∈
      handleClick ["homeContainer"] ⟨"Home", "homeContainer"⟩ :=
  ⟨(click_sets_active_before_scroll ["homeContainer"]
      ⟨"Home", "homeContainer"⟩).1,
   (click_sets_active_before_scroll ["homeContainer"]
      ⟨"Home", "homeContainer"⟩).2.2 "homeContainer" (by decide)⟩

/-- C2 counterexample: in a document with no contactContainer element,
clicking the Contact entry sets the active identifier and then throws a
TypeError out of the handler — the click is neither exception-free nor a
no-op. -/
theorem click_missing_target_throws_cex :
    handleClick [] ⟨"Contact", "contactContainer"⟩ =
      [DomAction.setActive "Contact", DomAction.throwTypeError] := by
  decide

/-- C2 amended: clicking an entry whose target selector resolves to zero
elements sets the active identifier to that entry and then throws a
TypeError out of the click handler (there is no warning-and-no-op path);
entries whose targets do resolve are unaffected, their clicks still set
their identifier and issue the smooth scroll. -/
theorem click_missing_target_behavior (dom : List String) (l : NavLinkDesc)
    (h : getElementById dom l.scrollToId = none) :
    handleClick dom l =
      [DomAction.setActive l.navLinkId, DomAction.throwTypeError] ∧
    (∀ l2 : NavLinkDesc, l2.scrollToId ∈ dom → handleClick dom l2 =
      [DomAction.setActive l2.navLinkId, DomAction.smoothScroll l2.scrollToId]) := by
  constructor
  · simp [handleClick, scrollToSection, h]
  · intro l2 h2
    simp [handleClick, scrollToSection, getElementById, h2]

/-- C2 amended witness: Contact's target is missing while Home's resolves. -/
theorem click_missing_target_behavior_witness :
    handleClick ["homeContainer"] ⟨"Contact", "contactContainer"⟩ =
      [DomAction.setActive "Contact", DomAction.throwTypeError] ∧
    handleClick ["homeContainer"] ⟨"Home", "homeContainer"⟩ =
      [DomAction.setActive "Home", DomAction.smoothScroll "homeContainer"] :=
  ⟨(click_missing_target_behavior ["homeContainer"]
      ⟨"Contact", "contactContainer"⟩ (by decide)).1,
   (click_missing_target_behavior ["homeContainer"]
      ⟨"Contact", "contactContainer"⟩ (by decide)).2
      ⟨"Home", "homeContainer"⟩ (by decide)⟩

/-- C3: in every reachable state the active identifier is the unset
sentinel or one of the configured identifiers, each entry's active styling
is exactly the equality test against the shared active identifier, and at
most one entry carries the active class. -/
theorem active_entry_unique_and_configured (s : SysState) (h : Reachable s) :
    (s.nav.activeNavLinkId = "" ∨
      s.nav.activeNavLinkId ∈ navLinks.map NavLinkDesc.navLinkId) ∧
    (∀ l, l ∈ navLinks →
      (navLinkClassName s.nav.activeNavLinkId l.navLinkId = "activeClass" ↔
        s.nav.activeNavLinkId = l.navLinkId)) ∧
    (navLinks.filter (fun l =>
      navLinkClassName s.nav.activeNavLinkId l.navLinkId ==
        "activeClass")).length ≤ 1 := by
  obtain ⟨es, hv, rfl⟩ := h
  refine ⟨sysRun_nav_mem es initSysState hv (Or.inl rfl), ?_, ?_⟩
  · intro l _
    exact className_active_iff _ _
  · exact filter_active_le_one _

/-- C3 witness: after a click on Home, at most one entry is styled
active. -/
theorem active_entry_unique_and_configured_witness :
    (navLinks.filter (fun l =>
      navLinkClassName
        (sysRun initSysState
          [SysEvent.click ⟨"Home", "homeContainer"⟩]).nav.activeNavLinkId
        l.navLinkId == "activeClass")).length ≤ 1 :=
  (active_entry_unique_and_configured
    (sysRun initSysState [SysEvent.click ⟨"Home", "homeContainer"⟩])
    ⟨[SysEvent.click ⟨"Home", "homeContainer"⟩], by decide, rfl⟩).2.2

/-- C4: in any reaction sequence containing a click on Contact, a later
visibility-enter report for Home (whose hook is still mounted) leaves the
active identifier at Home — the most recent reaction wins, clicks have no
precedence. -/
theorem last_reaction_wins (s : SysState) (es : List SysEvent)
    (_hclick : SysEvent.click ⟨"Contact", "contactContainer"⟩ ∈ es)
    (hhome : "Home" ∈ (sysRun s es).mounted) :
    (sysRun s (es ++ [SysEvent.vis "Home" true])).nav.activeNavLinkId =
      "Home" := by
  rw [sysRun_append]
  simp only [sysRun, List.foldl] at hhome ⊢
  simp [sysStep, useNavEffect, setActiveNavLinkId, hhome]

/-- C4 witness: Home mounted, click Contact, then Home visibility-enter. -/
theorem last_reaction_wins_witness :
    (sysRun ⟨⟨""⟩, ["Home"]⟩
      ([SysEvent.click ⟨"Contact", "contactContainer"⟩] ++
        [SysEvent.vis "Home" true])).nav.activeNavLinkId = "Home" :=
  last_reaction_wins ⟨⟨""⟩, ["Home"]⟩
    [SysEvent.click ⟨"Contact", "contactContainer"⟩]
    (by decide) (by decide)

/-- C5 counterexample: the useOnScreen effect with an unset reference runs
`observe(null)` and throws a TypeError — observation setup is not a crash-free
no-op. -/
theorem observe_null_crashes_cex :
    observeEffect none = ObserveResult.typeError := rfl

/-- C5 amended: with an unset target reference the observation setup throws
a TypeError (the `observe(ref.current)` call is unguarded); with a present
element the observation is registered without error. -/
theorem observe_effect_cases (r : Option String) :
    (r = none → observeEffect r = ObserveResult.typeError) ∧
    (∀ e, r = some e → observeEffect r = ObserveResult.observed) := by
  constructor
  · intro h; subst h; rfl
  · intro e h; subst h; rfl

/-- C5 amended witness: observing a present element succeeds. -/
theorem observe_effect_cases_witness :
    observeEffect (some "contactContainer") = ObserveResult.observed :=
  (observe_effect_cases (some "contactContainer")).2 "contactContainer" rfl

/-- C6: while a section's hook is mounted, a visibility-enter report writes
that section's identifier into Navigation State, and a not-visible report
leaves the state unchanged. -/
theorem visible_report_writes_identifier (s : SysState) (id : String)
    (h : id ∈ s.mounted) :
    (sysStep s (SysEvent.vis id true)).nav.activeNavLinkId = id ∧
    (sysStep s (SysEvent.vis id false)).nav = s.nav := by
  constructor
  · simp [sysStep, useNavEffect, setActiveNavLinkId, h]
  · simp [sysStep, useNavEffect, h]

/-- C6 witness: with About mounted, a visibility-enter for About activates
it and a not-visible report changes nothing. -/
theorem visible_report_writes_identifier_witness :
    (sysStep ⟨⟨"Home"⟩, ["About"]⟩
      (SysEvent.vis "About" true)).nav.activeNavLinkId = "About" ∧
    (sysStep ⟨⟨"Home"⟩, ["About"]⟩ (SysEvent.vis "About" false)).nav =
      (⟨⟨"Home"⟩, ["About"]⟩ : SysState).nav :=
  visible_report_writes_identifier ⟨⟨"Home"⟩, ["About"]⟩ "About" (by decide)

/-- C7: after a section's hook is unmounted (its observer disconnected),
any further visibility reports for that section leave Navigation State
unchanged, and the section stays deregistered. -/
theorem unmount_stops_writes (s : SysState) (id : String)
    (es : List SysEvent) (h : ∀ e ∈ es, ∃ b, e = SysEvent.vis id b) :
    (sysRun (sysStep s (SysEvent.unmount id)) es).nav = s.nav ∧
    id ∉ (sysRun (sysStep s (SysEvent.unmount id)) es).mounted := by
  have hnm : id ∉ (sysStep s (SysEvent.unmount id)).mounted := by
    simp [sysStep, List.mem_filter]
  have hrun := vis_run_noop id es h _ hnm
  rw [hrun]
  exact ⟨rfl, hnm⟩

/-- C7 witness: after unmounting About, a visibility-enter for About no
longer changes the active identifier. -/
theorem unmount_stops_writes_witness :
    (sysRun (sysStep ⟨⟨"Home"⟩, ["About"]⟩ (SysEvent.unmount "About"))
      [SysEvent.vis "About" true]).nav =
      (⟨⟨"Home"⟩, ["About"]⟩ : SysState).nav ∧
    "About" ∉ (sysRun (sysStep ⟨⟨"Home"⟩, ["About"]⟩
      (SysEvent.unmount "About")) [SysEvent.vis "About" true]).mounted :=
  unmount_stops_writes ⟨⟨"Home"⟩, ["About"]⟩ "About"
    [SysEvent.vis "About" true] (by decide)

/-- C8: at page load the active identifier is the empty-string sentinel and
no navigation entry carries the active class. -/
theorem initial_state_unset :
    initSysState.nav.activeNavLinkId = "" ∧
    navLinks.filter (fun l =>
      navLinkClassName initSysState.nav.activeNavLinkId l.navLinkId ==
        "activeClass") = [] := by
  decide

/-- C9: the NavProvider setter stores any string without validation — the
result's active identifier is exactly the argument — and when the argument
is outside the configured identifiers no entry is styled active. -/
theorem setter_unvalidated (st : NavState) (s : String) :
    (setActiveNavLinkId st s).activeNavLinkId = s ∧
    (s ∉ navLinks.map NavLinkDesc.navLinkId →
      navLinks.filter (fun l =>
        navLinkClassName s l.navLinkId == "activeClass") = []) := by
  constructor
  · rfl
  · intro hs
    simp [navLinks] at hs
    simp [navLinks, navLinkClassName, hs.1, hs.2.1, hs.2.2]

/-- C9 witness: storing an unconfigured identifier succeeds and highlights
nothing. -/
theorem setter_unvalidated_witness :
    (setActiveNavLinkId ⟨""⟩ "Bogus").activeNavLinkId = "Bogus" ∧
    navLinks.filter (fun l =>
      navLinkClassName "Bogus" l.navLinkId == "activeClass") = [] :=
  ⟨(setter_unvalidated ⟨""⟩ "Bogus").1,
   (setter_unvalidated ⟨""⟩ "Bogus").2 (by decide)⟩

/-- C10: once the active identifier is non-empty it never returns to the
unset sentinel under any valid reaction sequence, and a visibility-exit
report on its own never changes Navigation State. -/
theorem active_never_cleared (s : SysState) (es : List SysEvent)
    (hval : ∀ e ∈ es, validEvent e = true)
    (h : s.nav.activeNavLinkId ≠ "") :
    (sysRun s es).nav.activeNavLinkId ≠ "" ∧
    (∀ id, (sysStep s (SysEvent.vis id false)).nav = s.nav) := by
  refine ⟨sysRun_preserves_nonempty es s hval h, ?_⟩
  intro id
  by_cases hm : id ∈ s.mounted <;> simp [sysStep, useNavEffect, hm]

/-- C10 witness: with Home active, a visibility-exit for About leaves the
identifier non-empty. -/
theorem active_never_cleared_witness :
    (sysRun ⟨⟨"Home"⟩, []⟩ [SysEvent.vis "About" false]).nav.activeNavLinkId ≠
      "" :=
  (active_never_cleared ⟨⟨"Home"⟩, []⟩ [SysEvent.vis "About" false]
    (by decide) (by decide)).1
